import Mathlib

/-!
# Verification of the HeadstartWP Fetch Strategy subsystem

A shallow embedding of the fetch-strategy pipeline of the headstartwp
repository: URL-path parameter extraction, endpoint building, the
sequential network-call orchestration of the concrete strategies
(single post, posts archive, search, taxonomy terms) and the response
filter.  Network effects are modelled by passing an oracle
`Api : ApiCall → Except String ApiResponse` explicitly and returning the
trace of calls attempted, in order, next to the result.

Definitions are translated from the TypeScript sources
(`PostsArchiveFetchStrategy.ts`, `SearchFetchStrategy.ts`,
`TaxonomyTermsStrategy.ts`).  Parts of the repository whose source files
are not in the corpus (only their tests or callers are) are modelled
from the specification; each such definition carries a doc comment
starting with `Modelled from the spec:`.
-/

set_option autoImplicit false
set_option linter.unusedVariables false

namespace HeadstartWP

/-- Errors produced by the fetch pipeline, mirroring the error taxonomy
of the repository (`ConfigError`, `NotFoundError`, transport failures). -/
inductive FetchError where
  | config (msg : String)
  | notFound (msg : String)
  | transport (msg : String)
deriving Repr, DecidableEq

/-- A single network request as issued through `apiGet`: the URL and the
optional `Authorization` header value. -/
structure ApiCall where
  url : String
  auth : Option String := none
deriving Repr, DecidableEq

/-- A backend entity (post, term, author).  WordPress REST entities always
carry a numeric `id`; posts additionally carry a `link`; every other field
is kept in a generic name/value bag (used by the response filter). -/
structure Entity where
  id : Nat := 0
  link : String := ""
  fields : List (String × String) := []
deriving Repr, DecidableEq

/-- The payload of the Yoast SEO endpoint: `{ html, json }`. -/
structure SeoJson where
  html : String := ""
  fields : List (String × String) := []
deriving Repr, DecidableEq

/-- The JSON body of a backend response: content endpoints answer with an
array of entities (a single object is a one-element array, §6 of the
spec); the SEO endpoint answers with an `{ html, json }` object. -/
inductive ApiJson where
  | entities (es : List Entity)
  | seo (s : SeoJson)
deriving Repr, DecidableEq

/-- Interpreting a response body as a list of entities.  A non-array body
in a context expecting an array behaves like the JavaScript original
(`json.length > 0` is false on an object), i.e. like an empty list. -/
def ApiJson.asEntities : ApiJson → List Entity
  | .entities es => es
  | .seo _ => []

/-- A backend response: numeric headers (`x-wp-total`,
`x-wp-totalpages`) and the JSON body. -/
structure ApiResponse where
  headers : List (String × Nat) := []
  json : ApiJson
deriving Repr, DecidableEq

/-- The network capability: a deterministic oracle from a call to either
a transport failure or a response. -/
abbrev Api := ApiCall → Except String ApiResponse

/-- The ordered trace of network calls attempted during one fetch. -/
abbrev Trace := List ApiCall

/-- A registered custom post type: `{ slug, endpoint }`. -/
structure PostTypeConfig where
  slug : String
  endpoint : String
deriving Repr, DecidableEq

/-- A registered custom taxonomy:
`{ slug, endpoint, rewrite?, restParam? }`. -/
structure TaxonomyConfig where
  slug : String
  endpoint : String
  rewrite : Option String := none
  restParam : Option String := none
deriving Repr, DecidableEq

/-- Modelled from the spec: the configuration consumed by the strategies
(the file defining `getHeadlessConfig` and the registration helpers is
not in the corpus).  `postTypes` and `taxonomies` are the full
registration tables (built-ins such as `post` or `category` included),
read-only after initialization; `useWordPressPlugin` is the
extended-plugin flag; `sourceUrl` is the backend base URL. -/
structure HeadlessConfig where
  sourceUrl : String := ""
  useWordPressPlugin : Bool := false
  postTypes : List PostTypeConfig := []
  taxonomies : List TaxonomyConfig := []
deriving Repr, DecidableEq

/-- Modelled from the spec: `getCustomPostType` (utils file not in the
corpus) — resolve a post-type slug against the registration table. -/
def getCustomPostType (cfg : HeadlessConfig) (slug : String) : Option PostTypeConfig :=
  cfg.postTypes.find? (fun p => p.slug == slug)

/-- Modelled from the spec: `getCustomTaxonomies` (utils file not in the
corpus) — the registered taxonomy table. -/
def getCustomTaxonomies (cfg : HeadlessConfig) : List TaxonomyConfig :=
  cfg.taxonomies

/-- Modelled from the spec: `getCustomTaxonomySlugs` (utils file not in
the corpus) — the URL-facing slugs (rewrite if present) of the
registered taxonomies. -/
def getCustomTaxonomySlugs (cfg : HeadlessConfig) : List String :=
  cfg.taxonomies.map (fun t => t.rewrite.getD t.slug)

/-- `addQueryArgs` from the repository utils: append `key=value` pairs to
a URL, using `?` when the URL has no query string yet and `&` otherwise;
no arguments leaves the URL unchanged. -/
def addQueryArgs (url : String) (args : List (String × String)) : String :=
  match args with
  | [] => url
  | _ =>
    let sep := if url.contains '?' then "&" else "?"
    url ++ sep ++ String.intercalate "&" (args.map (fun p => p.1 ++ "=" ++ p.2))

/-- Read a numeric response header, defaulting to `1` when absent
(§4.4: pagination never throws on missing headers). -/
def headerNat (hs : List (String × Nat)) (k : String) : Nat :=
  (hs.lookup k).getD 1

/-- JavaScript string interpolation of a possibly-undefined value:
`none` renders as the string `undefined`. -/
def optStr : Option String → String
  | some s => s
  | none => "undefined"

/-- The `author` endpoint param of `PostsArchiveParams`: either numeric
id(s) or an author slug string. -/
inductive AuthorParam where
  | byId (id : Nat)
  | bySlug (slug : String)
deriving Repr, DecidableEq

/-- The `postType` param of the single-item strategy: one post-type slug
or an ordered list of fallback candidates. -/
inductive PostTypeParam where
  | single (slug : String)
  | multiple (slugs : List String)
deriving Repr, DecidableEq

/-- The endpoint params consumed by `PostsArchiveFetchStrategy` (and by
`SearchFetchStrategy`, which extends it).  Dynamically keyed taxonomy
filters (`category`, `tag` and registered custom-taxonomy slugs) live in
the `taxFilters` bag, mirroring the open JavaScript object accessed as
`params[paramSlug]`. -/
structure PostsArchiveParams where
  taxFilters : List (String × String) := []
  page : Option Nat := none
  per_page : Option Nat := none
  search : Option String := none
  author : Option AuthorParam := none
  postType : Option String := none
  slug : Option String := none
  id : Option Nat := none
  authToken : Option String := none
deriving Repr, DecidableEq

/-- The endpoint params consumed by `SinglePostFetchStrategy`. -/
structure PostParams where
  slug : Option String := none
  id : Option Nat := none
  postType : Option PostTypeParam := none
  revision : Bool := false
  authToken : Option String := none
deriving Repr, DecidableEq

/-- The endpoint params consumed by `TaxonomyTermsStrategy`
(`TaxonomyArchiveParams` in the source). -/
structure TaxonomyArchiveParams where
  taxonomy : Option String := none
  page : Option Nat := none
  per_page : Option Nat := none
  search : Option String := none
  authToken : Option String := none
deriving Repr, DecidableEq

/-- Pagination metadata of a response envelope, derived from the
`x-wp-total` / `x-wp-totalpages` headers, each defaulting to 1. -/
structure PageInfo where
  page : Nat := 1
  totalPages : Nat := 1
  totalItems : Nat := 1
deriving Repr, DecidableEq

/-- The `result` of an envelope: a single item (single-item strategies)
or an array of items (collection strategies). -/
inductive ResultData where
  | one (e : Entity)
  | many (es : List Entity)
deriving Repr, DecidableEq

/-- The `queriedObject.search` descriptor synthesized by the search
strategy. -/
structure SearchQueried where
  searchedValue : String
  type : String
  subtype : String
  yoast_head : String
  yoast_head_json : List (String × String)
deriving Repr, DecidableEq

/-- The queried-object slot of an envelope (only the `search` kind is
exercised by the strategies embedded here). -/
structure QueriedObject where
  search : Option SearchQueried := none
deriving Repr, DecidableEq

/-- The `FetchResponse` envelope: payload, pagination metadata and the
optional queried-object descriptor. -/
structure FetchResponse where
  result : ResultData
  pageInfo : PageInfo
  queriedObject : Option QueriedObject := none
deriving Repr, DecidableEq

/-- The `FetchOptions` accepted by the strategies' fetchers. -/
structure FetchOptions where
  throwIfNotFound : Bool := true
deriving Repr, DecidableEq

/-- Build the `pageInfo` of an envelope from response headers. -/
def mkPageInfo (hs : List (String × Nat)) : PageInfo :=
  { page := 1
    totalPages := headerNat hs "x-wp-totalpages"
    totalItems := headerNat hs "x-wp-total" }

namespace AbstractFetchStrategy

/-- Modelled from the spec: `AbstractFetchStrategy.fetcher` (the file
`AbstractFetchStrategy.ts` is not in the corpus).  Performs the single
`apiGet` with a bearer header when an auth token is present, derives
`pageInfo` from the headers, and raises `NotFoundError` on an empty
result only when `throwIfNotFound` is set. -/
def fetcher (api : Api) (url : String) (authToken : Option String)
    (options : FetchOptions) : Trace × Except FetchError FetchResponse :=
  let call : ApiCall := { url := url, auth := authToken.map (fun t => "Bearer " ++ t) }
  match api call with
  | .error e => ([call], .error (.transport e))
  | .ok resp =>
    let es := resp.json.asEntities
    if options.throwIfNotFound && es.isEmpty then
      ([call], .error (.notFound "The request did not return any results"))
    else
      ([call], .ok { result := .many es, pageInfo := mkPageInfo resp.headers })

/-- The field-projection options of the response filter (§4.5). -/
inductive FilterMethod where
  | allow
  | deny
deriving Repr, DecidableEq

/-- `FilterDataOptions`: the projection method and the field list. -/
structure FilterDataOptions where
  method : FilterMethod
  fields : List String
deriving Repr, DecidableEq

/-- Keep only the listed fields of an entity's field bag (the
always-required shape fields `id` and `link` are separate record fields
and survive the projection, per §4.5). -/
def allowFieldsEntity (fields : List String) (e : Entity) : Entity :=
  { e with fields := e.fields.filter (fun f => fields.contains f.1) }

/-- Remove the listed fields from an entity's field bag. -/
def removeFieldsEntity (fields : List String) (e : Entity) : Entity :=
  { e with fields := e.fields.filter (fun f => !fields.contains f.1) }

/-- Apply an entity transformation uniformly to a single-item or array
result. -/
def mapResult (f : Entity → Entity) : ResultData → ResultData
  | .one e => .one (f e)
  | .many es => .many (es.map f)

/-- Modelled from the spec: `removeFields` from `data/utils/dataFilter`
(file not in the corpus) — strip the listed fields from every item of
the result. -/
def removeFields (fields : List String) (r : ResultData) : ResultData :=
  mapResult (removeFieldsEntity fields) r

/-- Modelled from the spec: `AbstractFetchStrategy.filterData` (§4.5) —
`ALLOW` keeps only the listed fields, `DENY` removes them, uniformly
over single-item and array results. -/
def filterData (data : FetchResponse) (options : FilterDataOptions) : FetchResponse :=
  match options.method with
  | .allow => { data with result := mapResult (allowFieldsEntity options.fields) data.result }
  | .deny => { data with result := removeFields options.fields data.result }

end AbstractFetchStrategy

/-- Modelled from the spec: `AbstractFetchStrategy.buildEndpointURL`
(file not in the corpus) — `<endpoint>/<id>` when an id is present,
otherwise `<endpoint>?<serialized remaining params>` (§4.3). -/
def abstractBuildEndpointURL (endpoint : String) (id : Option Nat)
    (args : List (String × String)) : String :=
  match id with
  | some i => endpoint ++ "/" ++ toString i
  | none => addQueryArgs endpoint args

/-- Modelled from the spec: the `endpoints` table from `data/utils`
(file not in the corpus). -/
def endpointsPosts : String := "/wp-json/wp/v2/posts"

/-- Modelled from the spec: the default category endpoint. -/
def endpointsCategory : String := "/wp-json/wp/v2/categories"

/-- Modelled from the spec: the Yoast SEO head endpoint used by the
search strategy's best-effort side-fetch. -/
def endpointsYoast : String := "/wp-json/yoast/v1/get_head"

/-- The users endpoint hardcoded in `PostsArchiveFetchStrategy.ts`. -/
def authorsEndpoint : String := "/wp-json/wp/v2/users"

namespace PostsArchiveFetchStrategy

/-- Modelled from the spec: the query-string serialization performed by
the abstract endpoint builder over the remaining archive params, in a
fixed field order (§4.3: deterministic and pure). -/
def serializeParams (p : PostsArchiveParams) : List (String × String) :=
  p.taxFilters
    ++ (match p.slug with | some s => [("slug", s)] | none => [])
    ++ (match p.page with | some n => [("page", toString n)] | none => [])
    ++ (match p.per_page with | some n => [("per_page", toString n)] | none => [])
    ++ (match p.search with | some s => [("search", s)] | none => [])
    ++ (match p.author with
        | some (.byId n) => [("author", toString n)]
        | some (.bySlug s) => [("author", s)]
        | none => [])

/-- `PostsArchiveFetchStrategy.buildEndpointURL`: strips the routing
keys (`category`, `tag` and every truthy registered-taxonomy filter),
switches the endpoint for a registered `postType` (unknown post type is
a `ConfigError`), drops a string `author` when the WordPress plugin is
not in use, and hands the remainder to the abstract builder. -/
def buildEndpointURL (cfg : HeadlessConfig) (params : PostsArchiveParams) :
    Except FetchError String :=
  let taxSlugs := getCustomTaxonomySlugs cfg
  let afterDestructure := params.taxFilters.filter
    (fun f => !(f.1 == "category" || f.1 == "tag"))
  let stripped := afterDestructure.filter
    (fun f => !(taxSlugs.contains f.1 && f.2 != ""))
  let endpointE : Except FetchError String :=
    match params.postType with
    | some pt =>
      if pt == "" then .ok endpointsPosts
      else
        match getCustomPostType cfg pt with
        | none => .error (.config "Unkown post type, did you forget to add it to headless.config.js?")
        | some p => .ok p.endpoint
    | none => .ok endpointsPosts
  match endpointE with
  | .error e => .error e
  | .ok endpoint =>
    let dropAuthor :=
      match params.author with
      | some (.bySlug a) => a != "" && !cfg.useWordPressPlugin
      | _ => false
    let params2 := if dropAuthor then { params with author := none } else params
    .ok (abstractBuildEndpointURL endpoint params.id
      (stripped ++ (serializeParams { params2 with taxFilters := [] })))

/-- The taxonomy-resolution loop of `PostsArchiveFetchStrategy.fetcher`:
for each registered taxonomy whose (truthy) filter param is present,
either forward the slug as a query arg (WordPress plugin enabled) or
look the term up by slug on the taxonomy's endpoint and forward the
first match's numeric id; zero matches raise `NotFoundError` naming the
term and the taxonomy. -/
def resolveTaxonomyFilters (cfg : HeadlessConfig) (api : Api)
    (params : PostsArchiveParams) :
    List TaxonomyConfig → String → Trace × Except FetchError String
  | [], url => ([], .ok url)
  | t :: rest, url =>
    let paramSlug := t.rewrite.getD t.slug
    let restParam := t.restParam.getD t.slug
    match params.taxFilters.lookup paramSlug with
    | none => resolveTaxonomyFilters cfg api params rest url
    | some v =>
      if v == "" then resolveTaxonomyFilters cfg api params rest url
      else if cfg.useWordPressPlugin then
        resolveTaxonomyFilters cfg api params rest (addQueryArgs url [(restParam, v)])
      else
        let call : ApiCall := { url := cfg.sourceUrl ++ t.endpoint ++ "?slug=" ++ v }
        match api call with
        | .error e => ([call], .error (.transport e))
        | .ok resp =>
          match resp.json.asEntities with
          | [] =>
            ([call], .error (.notFound
              ("Term \"" ++ v ++ "\" from \"" ++ t.slug ++ "\" has not been found")))
          | e :: _ =>
            let next := resolveTaxonomyFilters cfg api params rest
              (addQueryArgs url [(restParam, toString e.id)])
            (call :: next.1, next.2)

/-- The author-resolution step of `PostsArchiveFetchStrategy.fetcher`:
a (truthy) string author without the WordPress plugin triggers a lookup
by slug on the users endpoint; zero matches raise `NotFoundError` naming
the author. -/
def resolveAuthor (cfg : HeadlessConfig) (api : Api)
    (params : PostsArchiveParams) (url : String) :
    Trace × Except FetchError String :=
  match params.author with
  | some (.bySlug a) =>
    if a == "" || cfg.useWordPressPlugin then ([], .ok url)
    else
      let call : ApiCall := { url := cfg.sourceUrl ++ authorsEndpoint ++ "?slug=" ++ a }
      match api call with
      | .error e => ([call], .error (.transport e))
      | .ok resp =>
        match resp.json.asEntities with
        | [] => ([call], .error (.notFound ("Author \"" ++ a ++ "\" not found")))
        | e :: _ => ([call], .ok (addQueryArgs url [("author", toString e.id)]))
  | _ => ([], .ok url)

/-- `PostsArchiveFetchStrategy.fetcher`: taxonomy resolution, then
author resolution, then the base fetch on the final URL. -/
def fetcher (cfg : HeadlessConfig) (api : Api) (url : String)
    (params : PostsArchiveParams) (options : FetchOptions) :
    Trace × Except FetchError FetchResponse :=
  match resolveTaxonomyFilters cfg api params (getCustomTaxonomies cfg) url with
  | (tr1, .error e) => (tr1, .error e)
  | (tr1, .ok url1) =>
    match resolveAuthor cfg api params url1 with
    | (tr2, .error e) => (tr1 ++ tr2, .error e)
    | (tr2, .ok url2) =>
      let base := AbstractFetchStrategy.fetcher api url2 params.authToken options
      (tr1 ++ tr2 ++ base.1, base.2)

/-- The calling convention of the data-fetching hooks:
`fetcher(buildEndpointURL(params), params)`.  A configuration error in
the endpoint builder aborts the request before any network call. -/
def request (cfg : HeadlessConfig) (api : Api) (params : PostsArchiveParams)
    (options : FetchOptions) : Trace × Except FetchError FetchResponse :=
  match buildEndpointURL cfg params with
  | .error e => ([], .error e)
  | .ok url => fetcher cfg api url params options

end PostsArchiveFetchStrategy

namespace SearchFetchStrategy

/-- The best-effort Yoast SEO side-fetch issued by
`SearchFetchStrategy.fetcher` (a plain interpolation of the possibly
absent search term, as in the JavaScript template literal). -/
def seoCall (cfg : HeadlessConfig) (params : PostsArchiveParams) : ApiCall :=
  { url := addQueryArgs (cfg.sourceUrl ++ endpointsYoast)
      [("url", cfg.sourceUrl ++ "/?s=" ++ optStr params.search)] }

/-- `SearchFetchStrategy.fetcher`: attempt the SEO side-fetch (failures
are swallowed, leaving the empty defaults), synthesize the
`queriedObject.search` descriptor, and run the archive fetcher with
`throwIfNotFound` disabled.  It accepts no fetch options. -/
def fetcher (cfg : HeadlessConfig) (api : Api) (url : String)
    (params : PostsArchiveParams) : Trace × Except FetchError FetchResponse :=
  let call := seoCall cfg params
  let seoData : SeoJson :=
    match api call with
    | .ok resp =>
      match resp.json with
      | .seo s => s
      | .entities _ => {}
    | .error _ => {}
  let searchDescriptor : SearchQueried :=
    { searchedValue := params.search.getD ""
      type := "post"
      subtype := params.postType.getD "post"
      yoast_head := seoData.html
      yoast_head_json := seoData.fields }
  let queriedObject : QueriedObject := { search := some searchDescriptor }
  match PostsArchiveFetchStrategy.fetcher cfg api url params { throwIfNotFound := false } with
  | (tr, .error e) => (call :: tr, .error e)
  | (tr, .ok resp) => (call :: tr, .ok { resp with queriedObject := some queriedObject })

end SearchFetchStrategy

namespace TaxonomyTermsStrategy

/-- `TaxonomyTermsStrategy.getParamsFromURL`: URL params are not
supported — both the path and the incoming params are ignored and the
empty parameter set is returned. -/
def getParamsFromURL (path : String) (params : TaxonomyArchiveParams) :
    TaxonomyArchiveParams :=
  {}

/-- `TaxonomyTermsStrategy.fetcher`: delegates to the base fetcher with
`throwIfNotFound` forced to `false`, whatever the caller supplied
(the spread `\x7b ...options, throwIfNotFound: false \x7d`). -/
def fetcher (api : Api) (url : String) (params : TaxonomyArchiveParams)
    (options : FetchOptions) : Trace × Except FetchError FetchResponse :=
  AbstractFetchStrategy.fetcher api url params.authToken
    { options with throwIfNotFound := false }

/-- `TaxonomyTermsStrategy.filterData`: with explicit options delegate
to the base projection, otherwise strip only `_links`. -/
def filterData (data : FetchResponse)
    (filterOptions : Option AbstractFetchStrategy.FilterDataOptions) : FetchResponse :=
  match filterOptions with
  | some o => AbstractFetchStrategy.filterData data o
  | none => { data with result := AbstractFetchStrategy.removeFields ["_links"] data.result }

end TaxonomyTermsStrategy

/-- The numeric value of a hexadecimal digit, if any. -/
def hexVal (c : Char) : Option Nat :=
  if '0' ≤ c ∧ c ≤ '9' then some (c.toNat - '0'.toNat)
  else if 'a' ≤ c ∧ c ≤ 'f' then some (c.toNat - 'a'.toNat + 10)
  else if 'A' ≤ c ∧ c ≤ 'F' then some (c.toNat - 'A'.toNat + 10)
  else none

/-- Percent-decoding over a character list (`%XY` with two hex digits
becomes the corresponding byte; malformed escapes pass through). -/
def percentDecodeList : List Char → List Char
  | [] => []
  | '%' :: a :: b :: rest =>
    match hexVal a, hexVal b with
    | some ha, some hb => Char.ofNat (16 * ha + hb) :: percentDecodeList rest
    | _, _ => '%' :: a :: b :: percentDecodeList rest
  | c :: rest => c :: percentDecodeList rest

/-- Modelled from the spec: the URL-decoding applied to captured path
components (§4.1). -/
def urlDecode (s : String) : String :=
  ⟨percentDecodeList s.data⟩

/-- One segment of a matcher-rule pattern: a literal that must match the
path component exactly, or a named capture that binds it. -/
inductive PatternSeg where
  | literal (s : String)
  | capture (name : String)
deriving Repr, DecidableEq

/-- Modelled from the spec: a `MatcherRule`
`\x7b name, pattern, priority \x7d` (§3); the pattern is kept in its
decomposed segment form.  When several rules match, the highest
priority wins, ties going to the earliest-registered rule (§4.1). -/
structure MatcherRule where
  name : String
  priority : Nat
  pattern : List PatternSeg
deriving Repr, DecidableEq

/-- Whether one pattern segment accepts one path component. -/
def segMatches : PatternSeg → String → Bool
  | .literal l, s => l == s
  | .capture _, _ => true

/-- Modelled from the spec: a path (represented by its list of
components) matches a pattern iff the segment counts are equal and every
literal segment matches exactly (§4.1). -/
def patternMatches (pat : List PatternSeg) (segs : List String) : Bool :=
  pat.length == segs.length && (pat.zip segs).all (fun p => segMatches p.1 p.2)

/-- The captures of a winning rule: each capture segment binds the
URL-decoded path component under the capture's name. -/
def patternCaptures (pat : List PatternSeg) (segs : List String) :
    List (String × String) :=
  (pat.zip segs).filterMap (fun p =>
    match p.1 with
    | .capture n => some (n, urlDecode p.2)
    | .literal _ => none)

/-- Select the winning rule among those matching: highest priority,
earliest-registered on ties. -/
def chooseRule (rules : List MatcherRule) (segs : List String) :
    Option MatcherRule :=
  (rules.filter (fun r => patternMatches r.pattern segs)).foldl
    (fun best r =>
      match best with
      | none => some r
      | some b => if r.priority > b.priority then some r else some b)
    none

/-- Modelled from the spec: `parsePath` (file not in the corpus) — the
captures of the winning matcher rule, or the empty mapping when no rule
matches (§4.1). -/
def parsePath (rules : List MatcherRule) (segs : List String) :
    List (String × String) :=
  match chooseRule rules segs with
  | some r => patternCaptures r.pattern segs
  | none => []

namespace SinglePostFetchStrategy

/-- Modelled from the spec: the single-post matcher rules (§4.2) — the
path shapes `/slug`, `/yyyy/slug`, `/yyyy/mm/slug`, `/yyyy/mm/dd/slug`,
`/parent/slug` and their date+parent combinations, every one capturing
the final component as `slug`. -/
def postMatchers : List MatcherRule :=
  [ { name := "post", priority := 10, pattern := [.capture "slug"] }
  , { name := "postWithParent", priority := 20
      pattern := [.capture "parent", .capture "slug"] }
  , { name := "postWithYear", priority := 30
      pattern := [.capture "year", .capture "slug"] }
  , { name := "postWithYearMonth", priority := 30
      pattern := [.capture "year", .capture "month", .capture "slug"] }
  , { name := "postWithYearMonthDay", priority := 30
      pattern := [.capture "year", .capture "month", .capture "day", .capture "slug"] }
  , { name := "postWithYearParent", priority := 30
      pattern := [.capture "year", .capture "parent", .capture "slug"] }
  , { name := "postWithYearMonthParent", priority := 30
      pattern := [.capture "year", .capture "month", .capture "parent", .capture "slug"] }
  , { name := "postWithYearMonthDayParent", priority := 30
      pattern := [.capture "year", .capture "month", .capture "day",
                  .capture "parent", .capture "slug"] } ]

/-- Modelled from the spec: `SinglePostFetchStrategy.getParamsFromURL`
(file not in the corpus; its unit tests are) — every matching path shape
reduces to `\x7b slug \x7d`: date and parent captures are discarded and
only the captured `slug` is kept (§4.2). -/
def getParamsFromURL (segs : List String) : PostParams :=
  { slug := (parsePath postMatchers segs).lookup "slug" }

/-- Modelled from the spec: resolution of the active post type for the
single-item strategy — the first entry of an array `postType` determines
the endpoint, a single string resolves directly, the default is the
posts endpoint; an unregistered (truthy) post type is a `ConfigError`
(§4.3). -/
def resolveEndpoint (cfg : HeadlessConfig) (postType : Option PostTypeParam) :
    Except FetchError String :=
  let resolveSlug : String → Except FetchError String := fun pt =>
    if pt == "" then .ok endpointsPosts
    else
      match getCustomPostType cfg pt with
      | none => .error (.config "Unkown post type, did you forget to add it to headless.config.js?")
      | some p => .ok p.endpoint
  match postType with
  | none => .ok endpointsPosts
  | some (.single pt) => resolveSlug pt
  | some (.multiple pts) =>
    match pts.head? with
    | none => .ok endpointsPosts
    | some pt => resolveSlug pt

/-- Modelled from the spec: `SinglePostFetchStrategy.buildEndpointURL` —
resolve the active post type, then `<endpoint>/<id>` when an id is
present, otherwise `<endpoint>?slug=<slug>` (§4.3). -/
def buildEndpointURL (cfg : HeadlessConfig) (params : PostParams) :
    Except FetchError String :=
  match resolveEndpoint cfg params.postType with
  | .error e => .error e
  | .ok endpoint =>
    match params.id with
    | some i => .ok (endpoint ++ "/" ++ toString i)
    | none => .ok (addQueryArgs endpoint [("slug", optStr params.slug)])

/-- Modelled from the spec: disambiguation of multiple items returned
for one slug — compare the requested path against each candidate's
source link by suffix matching, select the first exact suffix match, and
fall back to the first item when none matches (§4.4). -/
def selectPost (path : String) (es : List Entity) : Entity :=
  match es.find? (fun e => path.data.isSuffixOf e.link.data) with
  | some e => e
  | none => es.headD {}

/-- Turn a backend response into the single-item envelope: an empty
result is an authoritative not-found, otherwise the disambiguated item
is selected. -/
def finalize (path : String) (resp : ApiResponse) :
    Except FetchError FetchResponse :=
  match resp.json.asEntities with
  | [] => .error (.notFound "The request did not return any results")
  | es => .ok { result := .one (selectPost path es), pageInfo := mkPageInfo resp.headers }

/-- Modelled from the spec: the multi-post-type fallback of
`SinglePostFetchStrategy.fetcher` — attempt each candidate post type's
endpoint strictly in order, stopping at the first candidate whose fetch
returns a non-empty result; an unregistered candidate is a
`ConfigError`; when every candidate has returned empty the request is an
authoritative not-found (§4.4). -/
def fetchCandidates (cfg : HeadlessConfig) (api : Api) (path : String)
    (auth : Option String) (slug : String) :
    List String → Trace × Except FetchError FetchResponse
  | [] => ([], .error (.notFound "The request did not return any results"))
  | c :: rest =>
    match getCustomPostType cfg c with
    | none => ([], .error (.config "Unkown post type, did you forget to add it to headless.config.js?"))
    | some pt =>
      let call : ApiCall := { url := pt.endpoint ++ "?slug=" ++ slug, auth := auth }
      match api call with
      | .error e => ([call], .error (.transport e))
      | .ok resp =>
        match resp.json.asEntities with
        | [] =>
          let next := fetchCandidates cfg api path auth slug rest
          (call :: next.1, next.2)
        | es =>
          ([call], .ok { result := .one (selectPost path es)
                         pageInfo := mkPageInfo resp.headers })

/-- Modelled from the spec: `SinglePostFetchStrategy.fetcher` (file not
in the corpus; its unit tests are).  With `revision: true` and an id,
fetch `<endpoint>/<id>/revisions?per_page=1` and then the resource
itself, both calls carrying the bearer header; with an array `postType`
and no id, run the ordered candidate fallback; otherwise perform the
single fetch on the built URL (§4.4). -/
def fetcher (cfg : HeadlessConfig) (api : Api) (path : String) (url : String)
    (params : PostParams) : Trace × Except FetchError FetchResponse :=
  let auth := params.authToken.map (fun t => "Bearer " ++ t)
  match params.id with
  | some i =>
    if params.revision then
      let revCall : ApiCall := { url := url ++ "/revisions?per_page=1", auth := auth }
      match api revCall with
      | .error e => ([revCall], .error (.transport e))
      | .ok _ =>
        let mainCall : ApiCall := { url := url, auth := auth }
        match api mainCall with
        | .error e => ([revCall, mainCall], .error (.transport e))
        | .ok resp => ([revCall, mainCall], finalize path resp)
    else
      let call : ApiCall := { url := url, auth := auth }
      match api call with
      | .error e => ([call], .error (.transport e))
      | .ok resp => ([call], finalize path resp)
  | none =>
    match params.postType with
    | some (.multiple cands) => fetchCandidates cfg api path auth (optStr params.slug) cands
    | _ =>
      let call : ApiCall := { url := url, auth := auth }
      match api call with
      | .error e => ([call], .error (.transport e))
      | .ok resp => ([call], finalize path resp)

end SinglePostFetchStrategy

/-- Whether a taxonomy's filter param is present and truthy in a
parameter set (the guard of the taxonomy-resolution loop). -/
def taxTriggered (params : PostsArchiveParams) (t : TaxonomyConfig) : Bool :=
  match params.taxFilters.lookup (t.rewrite.getD t.slug) with
  | some v => v != ""
  | none => false

/-- The `queriedObject.search` descriptor the search fetcher produces
when the SEO side-fetch fails: searched value and post-type defaults
with the SEO fields degraded to their empty defaults. -/
def degradedSearchQueried (params : PostsArchiveParams) : QueriedObject :=
  let descriptor : SearchQueried :=
    { searchedValue := params.search.getD ""
      type := "post"
      subtype := params.postType.getD "post"
      yoast_head := ""
      yoast_head_json := [] }
  { search := some descriptor }

/-! ## Concrete fixtures for the witnesses -/

/-- A sample configuration: `book`/`post`/`page` post types and the
built-in `category` taxonomy registered. -/
def sampleCfg : HeadlessConfig :=
  { sourceUrl := ""
    useWordPressPlugin := false
    postTypes :=
      [ { slug := "book", endpoint := "/wp-json/wp/v2/book" }
      , { slug := "post", endpoint := "/wp-json/wp/v2/posts" }
      , { slug := "page", endpoint := "/wp-json/wp/v2/pages" } ]
    taxonomies :=
      [ { slug := "category", endpoint := "/wp-json/wp/v2/categories"
          rewrite := none, restParam := some "categories" } ] }

/-- A sample post entity. -/
def samplePost : Entity :=
  { id := 1, link := "/2021/10/post-name" }

/-- An oracle where the book endpoint is empty and every other endpoint
returns one post. -/
def apiBookEmpty : Api := fun call =>
  if call.url = "/wp-json/wp/v2/book?slug=post-name" then
    .ok { headers := [], json := .entities [] }
  else .ok { headers := [], json := .entities [samplePost] }

/-- An oracle answering every call with an empty collection. -/
def apiAllEmpty : Api := fun call =>
  .ok { headers := [], json := .entities [] }

/-- An oracle answering every call with one post. -/
def apiAlwaysPost : Api := fun call =>
  .ok { headers := [], json := .entities [samplePost] }

/-- An oracle where the primary search fetch succeeds empty and every
other call (the SEO side-fetch in particular) fails. -/
def apiSeoDown : Api := fun call =>
  if call.url = "/wp-json/wp/v2/posts?search=abc" then
    .ok { headers := [], json := .entities [] }
  else .error "seo down"

/-- An oracle where the primary fetch returns one post and every other
call (the SEO side-fetch in particular) fails. -/
def apiSeoFailPost : Api := fun call =>
  if call.url = "/wp-json/wp/v2/posts" then
    .ok { headers := [], json := .entities [samplePost] }
  else .error "seo down"

/-! ## Helper lemmas -/

theorem filter_idem {α : Type} (p : α → Bool) (l : List α) :
    (l.filter p).filter p = l.filter p := by
  induction l with
  | nil => rfl
  | cons a t ih =>
    cases hpa : p a <;> simp [List.filter_cons, hpa, ih]

theorem allowFieldsEntity_idem (fields : List String) (e : Entity) :
    AbstractFetchStrategy.allowFieldsEntity fields
      (AbstractFetchStrategy.allowFieldsEntity fields e) =
    AbstractFetchStrategy.allowFieldsEntity fields e := by
  simp [AbstractFetchStrategy.allowFieldsEntity, filter_idem]

theorem removeFieldsEntity_idem (fields : List String) (e : Entity) :
    AbstractFetchStrategy.removeFieldsEntity fields
      (AbstractFetchStrategy.removeFieldsEntity fields e) =
    AbstractFetchStrategy.removeFieldsEntity fields e := by
  simp [AbstractFetchStrategy.removeFieldsEntity, filter_idem]

theorem mapResult_idem (f : Entity → Entity) (hf : ∀ e, f (f e) = f e)
    (r : ResultData) :
    AbstractFetchStrategy.mapResult f (AbstractFetchStrategy.mapResult f r) =
    AbstractFetchStrategy.mapResult f r := by
  cases r with
  | one e => simp [AbstractFetchStrategy.mapResult, hf]
  | many es =>
    simp only [AbstractFetchStrategy.mapResult, List.map_map]
    congr 1
    exact List.map_congr_left (fun e _ => hf e)

theorem resolveTaxonomyFilters_cons_skip (cfg : HeadlessConfig) (api : Api)
    (params : PostsArchiveParams) (t : TaxonomyConfig)
    (ts : List TaxonomyConfig) (url : String)
    (ht : taxTriggered params t = false) :
    PostsArchiveFetchStrategy.resolveTaxonomyFilters cfg api params (t :: ts) url =
      PostsArchiveFetchStrategy.resolveTaxonomyFilters cfg api params ts url := by
  conv_lhs => unfold PostsArchiveFetchStrategy.resolveTaxonomyFilters
  cases hl : params.taxFilters.lookup (t.rewrite.getD t.slug) with
  | none => simp only [hl]
  | some v =>
    have hv : (v != "") = false := by
      simpa [taxTriggered, hl] using ht
    have hv0 : (v == "") = true := by
      cases hveq : v == "" with
      | true => rfl
      | false => simp [bne, hveq] at hv
    simp only [hl, hv0, if_true]

theorem resolveTaxonomyFilters_skip (cfg : HeadlessConfig) (api : Api)
    (params : PostsArchiveParams) (ts : List TaxonomyConfig) (url : String)
    (h : ∀ t ∈ ts, taxTriggered params t = false) :
    PostsArchiveFetchStrategy.resolveTaxonomyFilters cfg api params ts url =
      ([], .ok url) := by
  induction ts with
  | nil => rfl
  | cons t rest ih =>
    rw [resolveTaxonomyFilters_cons_skip cfg api params t rest url (h t (by simp))]
    exact ih (fun t' h' => h t' (by simp [h']))

theorem resolveTaxonomyFilters_append (cfg : HeadlessConfig) (api : Api)
    (params : PostsArchiveParams) (pre ts : List TaxonomyConfig) (url : String)
    (hpre : ∀ t ∈ pre, taxTriggered params t = false) :
    PostsArchiveFetchStrategy.resolveTaxonomyFilters cfg api params (pre ++ ts) url =
      PostsArchiveFetchStrategy.resolveTaxonomyFilters cfg api params ts url := by
  induction pre with
  | nil => rfl
  | cons t rest ih =>
    rw [List.cons_append]
    rw [resolveTaxonomyFilters_cons_skip cfg api params t (rest ++ ts) url
      (hpre t (by simp))]
    exact ih (fun t' h' => hpre t' (by simp [h']))

theorem resolveTaxonomyFilters_empty (cfg : HeadlessConfig) (api : Api)
    (params : PostsArchiveParams) (ts : List TaxonomyConfig) (url : String)
    (h : params.taxFilters = []) :
    PostsArchiveFetchStrategy.resolveTaxonomyFilters cfg api params ts url =
      ([], .ok url) := by
  apply resolveTaxonomyFilters_skip
  intro t _
  simp [taxTriggered, h]

theorem resolveAuthor_none (cfg : HeadlessConfig) (api : Api)
    (params : PostsArchiveParams) (url : String)
    (h : params.author = none) :
    PostsArchiveFetchStrategy.resolveAuthor cfg api params url = ([], .ok url) := by
  simp [PostsArchiveFetchStrategy.resolveAuthor, h]

/-- When no taxonomy filter and no author resolution applies, the
archive fetcher is exactly the base fetch on the given URL. -/
theorem archive_fetcher_plain (cfg : HeadlessConfig) (api : Api) (url : String)
    (params : PostsArchiveParams) (opts : FetchOptions)
    (htax : params.taxFilters = []) (hauthor : params.author = none) :
    PostsArchiveFetchStrategy.fetcher cfg api url params opts =
      AbstractFetchStrategy.fetcher api url params.authToken opts := by
  unfold PostsArchiveFetchStrategy.fetcher
  rw [resolveTaxonomyFilters_empty cfg api params _ url htax]
  simp only []
  rw [resolveAuthor_none cfg api params url hauthor]
  simp

theorem percentDecodeList_no_percent (l : List Char) (h : ∀ c ∈ l, c ≠ '%') :
    percentDecodeList l = l := by
  induction l using percentDecodeList.induct with
  | case1 => rfl
  | case2 a b rest ha hb ih => exact absurd rfl (h '%' (by simp))
  | case3 a b rest hfail ih => exact absurd rfl (h '%' (by simp))
  | case4 c rest hne ih =>
    have hr := ih (fun c' hc => h c' (List.mem_cons_of_mem _ hc))
    simp [percentDecodeList, hr]

theorem urlDecode_no_percent (s : String) (h : ∀ c ∈ s.data, c ≠ '%') :
    urlDecode s = s := by
  unfold urlDecode
  rw [percentDecodeList_no_percent s.data h]

theorem selectPost_singleton (path : String) (e : Entity) :
    SinglePostFetchStrategy.selectPost path [e] = e := by
  unfold SinglePostFetchStrategy.selectPost
  cases hp : path.data.isSuffixOf e.link.data <;>
    simp [List.find?, hp]

theorem fetchCandidates_all_empty (cfg : HeadlessConfig) (api : Api)
    (path : String) (auth : Option String) (slug : String)
    (cands : List String)
    (h : ∀ c ∈ cands, ∃ pc hdrs, getCustomPostType cfg c = some pc ∧
      api { url := pc.endpoint ++ "?slug=" ++ slug, auth := auth } =
        .ok { headers := hdrs, json := .entities [] }) :
    (SinglePostFetchStrategy.fetchCandidates cfg api path auth slug cands).2 =
      .error (.notFound "The request did not return any results") ∧
    (SinglePostFetchStrategy.fetchCandidates cfg api path auth slug cands).1.length =
      cands.length := by
  induction cands with
  | nil => exact ⟨rfl, rfl⟩
  | cons c rest ih =>
    obtain ⟨pc, hdrs, hpc, hapi⟩ := h c (by simp)
    have hrest := ih (fun c' h' => h c' (by simp [h']))
    unfold SinglePostFetchStrategy.fetchCandidates
    simp only [hpc, hapi, ApiJson.asEntities]
    exact ⟨hrest.1, by simp [hrest.2]⟩

theorem fetchCandidates_first_hit (cfg : HeadlessConfig) (api : Api)
    (path : String) (auth : Option String) (slug : String)
    (c : String) (rest : List String) (pc : PostTypeConfig)
    (hdrs : List (String × Nat)) (e : Entity) (es : List Entity)
    (hpc : getCustomPostType cfg c = some pc)
    (hapi : api { url := pc.endpoint ++ "?slug=" ++ slug, auth := auth } =
      .ok { headers := hdrs, json := .entities (e :: es) }) :
    SinglePostFetchStrategy.fetchCandidates cfg api path auth slug (c :: rest) =
      ([{ url := pc.endpoint ++ "?slug=" ++ slug, auth := auth }],
       .ok { result := .one (SinglePostFetchStrategy.selectPost path (e :: es))
             pageInfo := mkPageInfo hdrs }) := by
  unfold SinglePostFetchStrategy.fetchCandidates
  simp only [hpc, hapi, ApiJson.asEntities]

/-! ## Claim theorems -/

/-- C7: for the taxonomy-terms strategy, `getParamsFromURL` returns the
empty parameter set for every input path and every input params
argument — URL-derived params are never produced. -/
theorem claim_c7_taxonomy_terms_no_url_params
    (path : String) (params : TaxonomyArchiveParams) :
    TaxonomyTermsStrategy.getParamsFromURL path params =
      ({} : TaxonomyArchiveParams) := rfl

/-- C8: the response filter of the taxonomy-terms strategy is
idempotent — filtering an already-filtered envelope with the same
options (including the default no-options case, which strips only
`_links`) is a no-op, field for field, for both single-item and array
results. -/
theorem claim_c8_filterData_idempotent (data : FetchResponse)
    (opts : Option AbstractFetchStrategy.FilterDataOptions) :
    TaxonomyTermsStrategy.filterData (TaxonomyTermsStrategy.filterData data opts) opts =
      TaxonomyTermsStrategy.filterData data opts := by
  cases opts with
  | none =>
    simp [TaxonomyTermsStrategy.filterData, AbstractFetchStrategy.removeFields,
      mapResult_idem _ (removeFieldsEntity_idem _)]
  | some o =>
    cases o with
    | mk method fields =>
      cases method <;>
        simp [TaxonomyTermsStrategy.filterData, AbstractFetchStrategy.filterData,
          AbstractFetchStrategy.removeFields,
          mapResult_idem _ (allowFieldsEntity_idem _),
          mapResult_idem _ (removeFieldsEntity_idem _)]

/-- C1: the single-item fetcher with an array `postType` attempts each
candidate post type's endpoint strictly in array order, stops at the
first candidate whose fetch returns a non-empty result (later candidates
are never fetched, its trace being that single call), and raises a
not-found error only after every candidate has returned empty (its trace
then covering every candidate); in particular for
`\x7b postType: ["book", "post"], slug \x7d` with the book endpoint
empty and the posts endpoint returning one match, exactly two sequential
calls are made, book endpoint first, and the returned result is the
posts match. -/
theorem claim_c1_multi_post_type_fallback :
    (∀ (cfg : HeadlessConfig) (api : Api) (path url s bEp pEp : String)
       (e : Entity) (hdrs0 hdrs : List (String × Nat)),
       getCustomPostType cfg "book" = some { slug := "book", endpoint := bEp } →
       getCustomPostType cfg "post" = some { slug := "post", endpoint := pEp } →
       api { url := bEp ++ "?slug=" ++ s, auth := none } =
         .ok { headers := hdrs0, json := .entities [] } →
       api { url := pEp ++ "?slug=" ++ s, auth := none } =
         .ok { headers := hdrs, json := .entities [e] } →
       SinglePostFetchStrategy.fetcher cfg api path url
         { slug := some s, postType := some (.multiple ["book", "post"]) } =
         ([{ url := bEp ++ "?slug=" ++ s, auth := none },
           { url := pEp ++ "?slug=" ++ s, auth := none }],
          .ok { result := .one e, pageInfo := mkPageInfo hdrs })) ∧
    (∀ (cfg : HeadlessConfig) (api : Api) (path url s : String)
       (cands : List String),
       (∀ c ∈ cands, ∃ pc hdrs, getCustomPostType cfg c = some pc ∧
         api { url := pc.endpoint ++ "?slug=" ++ s, auth := none } =
           .ok { headers := hdrs, json := .entities [] }) →
       (SinglePostFetchStrategy.fetcher cfg api path url
         { slug := some s, postType := some (.multiple cands) }).2 =
         .error (.notFound "The request did not return any results") ∧
       (SinglePostFetchStrategy.fetcher cfg api path url
         { slug := some s, postType := some (.multiple cands) }).1.length =
         cands.length) ∧
    (∀ (cfg : HeadlessConfig) (api : Api) (path url s c : String)
       (rest : List String) (pc : PostTypeConfig) (hdrs : List (String × Nat))
       (e : Entity) (es : List Entity),
       getCustomPostType cfg c = some pc →
       api { url := pc.endpoint ++ "?slug=" ++ s, auth := none } =
         .ok { headers := hdrs, json := .entities (e :: es) } →
       SinglePostFetchStrategy.fetcher cfg api path url
         { slug := some s, postType := some (.multiple (c :: rest)) } =
         ([{ url := pc.endpoint ++ "?slug=" ++ s, auth := none }],
          .ok { result := .one (SinglePostFetchStrategy.selectPost path (e :: es))
                pageInfo := mkPageInfo hdrs })) := by
  refine ⟨?_, ?_, ?_⟩
  · intro cfg api path url s bEp pEp e hdrs0 hdrs hbook hpost hb hp
    show SinglePostFetchStrategy.fetchCandidates cfg api path none s ["book", "post"] = _
    unfold SinglePostFetchStrategy.fetchCandidates
    simp only [hbook, hpost, hb, hp, ApiJson.asEntities]
    unfold SinglePostFetchStrategy.fetchCandidates
    simp only [hpost, hp, ApiJson.asEntities]
    simp [selectPost_singleton]
  · intro cfg api path url s cands h
    exact fetchCandidates_all_empty cfg api path none s cands h
  · intro cfg api path url s c rest pc hdrs e es hpc hapi
    exact fetchCandidates_first_hit cfg api path none s c rest pc hdrs e es hpc hapi

/-- C6: the single-post strategy's URL parsing reduces every path of
the shapes `/slug`, `/yyyy/slug`, `/yyyy/mm/slug`, `/yyyy/mm/dd/slug`,
`/parent/slug` and their date+parent combinations to exactly
`\x7b slug \x7d`, the slug being the final path segment; the date and
parent segments are discarded at parse time and contribute no other
parameters. -/
theorem claim_c6_single_post_url_params (y m d p s : String)
    (hs : ∀ c ∈ s.data, c ≠ '%') :
    SinglePostFetchStrategy.getParamsFromURL [s] = { slug := some s } ∧
    SinglePostFetchStrategy.getParamsFromURL [y, s] = { slug := some s } ∧
    SinglePostFetchStrategy.getParamsFromURL [y, m, s] = { slug := some s } ∧
    SinglePostFetchStrategy.getParamsFromURL [y, m, d, s] = { slug := some s } ∧
    SinglePostFetchStrategy.getParamsFromURL [p, s] = { slug := some s } ∧
    SinglePostFetchStrategy.getParamsFromURL [y, p, s] = { slug := some s } ∧
    SinglePostFetchStrategy.getParamsFromURL [y, m, p, s] = { slug := some s } ∧
    SinglePostFetchStrategy.getParamsFromURL [y, m, d, p, s] = { slug := some s } := by
  have h1 : SinglePostFetchStrategy.getParamsFromURL [s] =
      { slug := some (urlDecode s) } := rfl
  have h2 : SinglePostFetchStrategy.getParamsFromURL [y, s] =
      { slug := some (urlDecode s) } := rfl
  have h3 : SinglePostFetchStrategy.getParamsFromURL [y, m, s] =
      { slug := some (urlDecode s) } := rfl
  have h4 : SinglePostFetchStrategy.getParamsFromURL [y, m, d, s] =
      { slug := some (urlDecode s) } := rfl
  have h5 : SinglePostFetchStrategy.getParamsFromURL [p, s] =
      { slug := some (urlDecode s) } := rfl
  have h6 : SinglePostFetchStrategy.getParamsFromURL [y, p, s] =
      { slug := some (urlDecode s) } := rfl
  have h7 : SinglePostFetchStrategy.getParamsFromURL [y, m, p, s] =
      { slug := some (urlDecode s) } := rfl
  have h8 : SinglePostFetchStrategy.getParamsFromURL [y, m, d, p, s] =
      { slug := some (urlDecode s) } := rfl
  have hdec := urlDecode_no_percent s hs
  rw [hdec] at h1 h2 h3 h4 h5 h6 h7 h8
  exact ⟨h1, h2, h3, h4, h5, h6, h7, h8⟩

/-- C2: for the posts-archive strategy, a present (truthy) registered
taxonomy slug param without the extended-plugin flag makes the fetcher
issue a lookup call to that taxonomy's term endpoint filtered by slug
before the primary fetch and forward the first match's numeric id; a
lookup returning zero matches raises a `NotFoundError` whose message
names the missing term slug and its taxonomy. -/
theorem claim_c2_taxonomy_lookup_before_primary
    (cfg : HeadlessConfig) (api : Api) (url : String)
    (params : PostsArchiveParams) (t : TaxonomyConfig) (v : String)
    (pre post : List TaxonomyConfig) (opts : FetchOptions)
    (hcfg : cfg.taxonomies = pre ++ t :: post)
    (hpre : ∀ t' ∈ pre, taxTriggered params t' = false)
    (hpost : ∀ t' ∈ post, taxTriggered params t' = false)
    (hv : params.taxFilters.lookup (t.rewrite.getD t.slug) = some v)
    (hv0 : v ≠ "")
    (hplugin : cfg.useWordPressPlugin = false)
    (hauthor : params.author = none) :
    (∀ hdrs, api { url := cfg.sourceUrl ++ t.endpoint ++ "?slug=" ++ v } =
        .ok { headers := hdrs, json := .entities [] } →
      PostsArchiveFetchStrategy.fetcher cfg api url params opts =
        ([{ url := cfg.sourceUrl ++ t.endpoint ++ "?slug=" ++ v }],
         .error (.notFound
           ("Term \"" ++ v ++ "\" from \"" ++ t.slug ++ "\" has not been found")))) ∧
    (∀ hdrs e es, api { url := cfg.sourceUrl ++ t.endpoint ++ "?slug=" ++ v } =
        .ok { headers := hdrs, json := .entities (e :: es) } →
      PostsArchiveFetchStrategy.fetcher cfg api url params opts =
        ({ url := cfg.sourceUrl ++ t.endpoint ++ "?slug=" ++ v } ::
           (AbstractFetchStrategy.fetcher api
             (addQueryArgs url [(t.restParam.getD t.slug, toString e.id)])
             params.authToken opts).1,
         (AbstractFetchStrategy.fetcher api
           (addQueryArgs url [(t.restParam.getD t.slug, toString e.id)])
           params.authToken opts).2)) := by
  have hbe : (v == "") = false := beq_eq_false_iff_ne.mpr hv0
  have htaxes : getCustomTaxonomies cfg = pre ++ t :: post := by
    simp [getCustomTaxonomies, hcfg]
  constructor
  · intro hdrs hapi
    have hres : PostsArchiveFetchStrategy.resolveTaxonomyFilters cfg api params
        (pre ++ t :: post) url =
        ([{ url := cfg.sourceUrl ++ t.endpoint ++ "?slug=" ++ v }],
         .error (.notFound
           ("Term \"" ++ v ++ "\" from \"" ++ t.slug ++ "\" has not been found"))) := by
      rw [resolveTaxonomyFilters_append cfg api params pre _ url hpre]
      unfold PostsArchiveFetchStrategy.resolveTaxonomyFilters
      simp only [hv, hbe, hplugin, hapi, Bool.false_eq_true, if_false,
        ApiJson.asEntities]
    unfold PostsArchiveFetchStrategy.fetcher
    rw [htaxes, hres]
  · intro hdrs e es hapi
    have hres : PostsArchiveFetchStrategy.resolveTaxonomyFilters cfg api params
        (pre ++ t :: post) url =
        ([{ url := cfg.sourceUrl ++ t.endpoint ++ "?slug=" ++ v }],
         .ok (addQueryArgs url [(t.restParam.getD t.slug, toString e.id)])) := by
      rw [resolveTaxonomyFilters_append cfg api params pre _ url hpre]
      unfold PostsArchiveFetchStrategy.resolveTaxonomyFilters
      simp only [hv, hbe, hplugin, hapi, Bool.false_eq_true, if_false,
        ApiJson.asEntities]
      rw [resolveTaxonomyFilters_skip cfg api params post _ hpost]
    unfold PostsArchiveFetchStrategy.fetcher
    rw [htaxes, hres]
    simp only []
    rw [resolveAuthor_none cfg api params _ hauthor]
    simp

/-- C3: a parameter set whose `postType` names an unregistered post
type makes the endpoint builder raise a `ConfigError` naming the missing
registration, and the request issues no network call (its trace is
empty); likewise for the single-item strategy's endpoint builder. -/
theorem claim_c3_unknown_post_type_config_error
    (cfg : HeadlessConfig) (api : Api) (params : PostsArchiveParams)
    (opts : FetchOptions) (pt : String)
    (h1 : params.postType = some pt) (h2 : pt ≠ "")
    (h3 : getCustomPostType cfg pt = none) :
    PostsArchiveFetchStrategy.request cfg api params opts =
      ([], .error (.config
        "Unkown post type, did you forget to add it to headless.config.js?")) ∧
    PostsArchiveFetchStrategy.buildEndpointURL cfg params =
      .error (.config
        "Unkown post type, did you forget to add it to headless.config.js?") ∧
    (∀ sparams : PostParams, sparams.postType = some (.single pt) →
      SinglePostFetchStrategy.buildEndpointURL cfg sparams =
        .error (.config
          "Unkown post type, did you forget to add it to headless.config.js?")) := by
  have hbe : (pt == "") = false := beq_eq_false_iff_ne.mpr h2
  have hbuild : PostsArchiveFetchStrategy.buildEndpointURL cfg params =
      .error (.config
        "Unkown post type, did you forget to add it to headless.config.js?") := by
    unfold PostsArchiveFetchStrategy.buildEndpointURL
    simp only [h1, hbe, h3, Bool.false_eq_true, if_false]
  refine ⟨?_, hbuild, ?_⟩
  · unfold PostsArchiveFetchStrategy.request
    rw [hbuild]
  · intro sparams hs
    unfold SinglePostFetchStrategy.buildEndpointURL SinglePostFetchStrategy.resolveEndpoint
    simp only [hs, hbe, h3, Bool.false_eq_true, if_false]

/-- C5: for the single-item strategy, a fetch with
`\x7b id: 10, revision: true, authToken: "t" \x7d` issues exactly two
sequential calls — `<endpoint>/10/revisions?per_page=1` first, then
`<endpoint>/10` — and both calls carry the same
`Authorization: Bearer t` header. -/
theorem claim_c5_revision_two_calls (cfg : HeadlessConfig) (api : Api)
    (path ep u : String) (pt : Option PostTypeParam) (resp : ApiResponse)
    (hep : SinglePostFetchStrategy.resolveEndpoint cfg pt = .ok ep)
    (hb : SinglePostFetchStrategy.buildEndpointURL cfg
      { slug := none, id := some 10, postType := pt, revision := true,
        authToken := some "t" } = .ok u)
    (hrev : api { url := u ++ "/revisions?per_page=1", auth := some "Bearer t" } =
      .ok resp) :
    u = ep ++ "/" ++ "10" ∧
    (SinglePostFetchStrategy.fetcher cfg api path u
      { slug := none, id := some 10, postType := pt, revision := true,
        authToken := some "t" }).1 =
      [{ url := u ++ "/revisions?per_page=1", auth := some "Bearer t" },
       { url := u, auth := some "Bearer t" }] := by
  have hu : u = ep ++ "/" ++ "10" := by
    unfold SinglePostFetchStrategy.buildEndpointURL at hb
    rw [hep] at hb
    simp only [] at hb
    exact (Except.ok.inj hb).symm
  refine ⟨hu, ?_⟩
  unfold SinglePostFetchStrategy.fetcher
  have hauth : Option.map (fun t => "Bearer " ++ t) (some "t") = some "Bearer t" := rfl
  simp only [hauth]
  rw [hrev]
  cases api { url := u, auth := some "Bearer t" } <;> rfl

/-- C4: a search fetch whose backend response has zero results yields a
successful envelope with an empty result list (never a `NotFoundError`),
and a failure of the best-effort SEO side-fetch is swallowed: the fetch
still succeeds with the SEO fields degraded to their empty defaults. -/
theorem claim_c4_search_zero_results_ok (cfg : HeadlessConfig) (api : Api)
    (url : String) (params : PostsArchiveParams)
    (hdrs : List (String × Nat)) (msg : String)
    (htax : params.taxFilters = []) (hauthor : params.author = none)
    (hseo : api (SearchFetchStrategy.seoCall cfg params) = .error msg)
    (hmain : api { url := url, auth := params.authToken.map (fun t => "Bearer " ++ t) } =
      .ok { headers := hdrs, json := .entities [] }) :
    SearchFetchStrategy.fetcher cfg api url params =
      ([SearchFetchStrategy.seoCall cfg params,
        { url := url, auth := params.authToken.map (fun t => "Bearer " ++ t) }],
       .ok { result := .many []
             pageInfo := mkPageInfo hdrs
             queriedObject := some (degradedSearchQueried params) }) := by
  simp only [SearchFetchStrategy.fetcher,
    archive_fetcher_plain cfg api url params _ htax hauthor,
    AbstractFetchStrategy.fetcher, hmain, hseo]
  simp [ApiJson.asEntities, degradedSearchQueried]

/-- C10: every successful response of the search fetcher carries a
`queriedObject.search` descriptor with the total defaults — searched
value `""` when `params.search` is absent, `type` always `"post"`,
`subtype` defaulting to `"post"`, and, when the SEO side-fetch fails,
`yoast_head = ""` and an empty `yoast_head_json` — present whatever the
result set (including an empty one). -/
theorem claim_c10_search_queried_object_defaults (cfg : HeadlessConfig)
    (api : Api) (url : String) (params : PostsArchiveParams)
    (tr : Trace) (r : FetchResponse) (msg : String)
    (hseo : api (SearchFetchStrategy.seoCall cfg params) = .error msg)
    (harch : PostsArchiveFetchStrategy.fetcher cfg api url params
      { throwIfNotFound := false } = (tr, .ok r)) :
    SearchFetchStrategy.fetcher cfg api url params =
      (SearchFetchStrategy.seoCall cfg params :: tr,
       .ok { r with queriedObject := some (degradedSearchQueried params) }) := by
  simp only [SearchFetchStrategy.fetcher, harch, hseo]
  simp [degradedSearchQueried]

/-- C9: the taxonomy-terms fetcher discards any caller-supplied
`throwIfNotFound` (forcing it to `false`, even against an explicit
`true`), and the search fetcher — whose signature accepts no fetch
options at all — always reaches the base fetch with `throwIfNotFound`
disabled, so an empty backend result can never surface as not-found. -/
theorem claim_c9_not_found_always_disabled :
    (∀ (api : Api) (url : String) (params : TaxonomyArchiveParams)
       (opts : FetchOptions),
       TaxonomyTermsStrategy.fetcher api url params opts =
         TaxonomyTermsStrategy.fetcher api url params
           { opts with throwIfNotFound := false }) ∧
    (∀ (cfg : HeadlessConfig) (api : Api) (url : String)
       (params : PostsArchiveParams) (hdrs : List (String × Nat))
       (es : List Entity),
       params.taxFilters = [] → params.author = none →
       api { url := url, auth := params.authToken.map (fun t => "Bearer " ++ t) } =
         .ok { headers := hdrs, json := .entities es } →
       ∃ r, (SearchFetchStrategy.fetcher cfg api url params).2 = .ok r ∧
         r.result = .many es) := by
  constructor
  · intro api url params opts
    rfl
  · intro cfg api url params hdrs es htax hauthor hmain
    simp only [SearchFetchStrategy.fetcher,
      archive_fetcher_plain cfg api url params _ htax hauthor,
      AbstractFetchStrategy.fetcher, hmain]
    cases api (SearchFetchStrategy.seoCall cfg params) <;>
      simp [ApiJson.asEntities]

/-! ## Witnesses -/

/-- Witness for C1: the concrete two-call book-then-posts scenario. -/
theorem claim_c1_witness :
    SinglePostFetchStrategy.fetcher sampleCfg apiBookEmpty "/2021/10/post-name"
      "/wp-json/wp/v2/book?slug=post-name"
      { slug := some "post-name", postType := some (.multiple ["book", "post"]) } =
      ([{ url := "/wp-json/wp/v2/book?slug=post-name", auth := none },
        { url := "/wp-json/wp/v2/posts?slug=post-name", auth := none }],
       .ok { result := .one samplePost, pageInfo := mkPageInfo [] }) :=
  claim_c1_multi_post_type_fallback.1 sampleCfg apiBookEmpty "/2021/10/post-name"
    "/wp-json/wp/v2/book?slug=post-name" "post-name" "/wp-json/wp/v2/book"
    "/wp-json/wp/v2/posts" samplePost [] [] rfl rfl rfl rfl

/-- Witness for C2: `\x7b category: "news" \x7d` with an empty term
lookup raises the naming `NotFoundError` after exactly the lookup
call. -/
theorem claim_c2_witness :
    PostsArchiveFetchStrategy.fetcher sampleCfg apiAllEmpty "/wp-json/wp/v2/posts"
      { taxFilters := [("category", "news")] } {} =
      ([{ url := "/wp-json/wp/v2/categories?slug=news", auth := none }],
       .error (.notFound "Term \"news\" from \"category\" has not been found")) :=
  (claim_c2_taxonomy_lookup_before_primary sampleCfg apiAllEmpty "/wp-json/wp/v2/posts"
    { taxFilters := [("category", "news")] }
    { slug := "category", endpoint := "/wp-json/wp/v2/categories"
      rewrite := none, restParam := some "categories" }
    "news" [] [] {} rfl (by simp) (by simp) rfl (by decide) rfl rfl).1 [] rfl

/-- Witness for C3: `\x7b postType: "unknown" \x7d` raises the
configuration error with an empty trace. -/
theorem claim_c3_witness :
    PostsArchiveFetchStrategy.request sampleCfg apiAllEmpty
      { postType := some "unknown" } {} =
      ([], .error (.config
        "Unkown post type, did you forget to add it to headless.config.js?")) :=
  (claim_c3_unknown_post_type_config_error sampleCfg apiAllEmpty
    { postType := some "unknown" } {} "unknown" rfl (by decide) rfl).1

/-- Witness for C4: zero search results with a failing SEO side-fetch
still succeed with an empty result list and degraded SEO defaults. -/
theorem claim_c4_witness :
    SearchFetchStrategy.fetcher sampleCfg apiSeoDown "/wp-json/wp/v2/posts?search=abc"
      { search := some "abc" } =
      ([SearchFetchStrategy.seoCall sampleCfg { search := some "abc" },
        { url := "/wp-json/wp/v2/posts?search=abc", auth := none }],
       .ok { result := .many []
             pageInfo := mkPageInfo []
             queriedObject := some (degradedSearchQueried { search := some "abc" }) }) :=
  claim_c4_search_zero_results_ok sampleCfg apiSeoDown "/wp-json/wp/v2/posts?search=abc"
    { search := some "abc" } [] "seo down" rfl rfl rfl rfl

/-- Witness for C5: the concrete revision fetch issues the two calls
with the shared bearer header. -/
theorem claim_c5_witness :
    "/wp-json/wp/v2/posts/10" = endpointsPosts ++ "/" ++ "10" ∧
    (SinglePostFetchStrategy.fetcher sampleCfg apiAlwaysPost "/post-name"
      "/wp-json/wp/v2/posts/10"
      { slug := none, id := some 10, postType := none, revision := true,
        authToken := some "t" }).1 =
      [{ url := "/wp-json/wp/v2/posts/10" ++ "/revisions?per_page=1",
         auth := some "Bearer t" },
       { url := "/wp-json/wp/v2/posts/10", auth := some "Bearer t" }] :=
  claim_c5_revision_two_calls sampleCfg apiAlwaysPost "/post-name" endpointsPosts
    "/wp-json/wp/v2/posts/10" none { headers := [], json := .entities [samplePost] }
    rfl rfl rfl

/-- Witness for C6: concrete date/parent path shapes all reduce to the
final segment as the slug. -/
theorem claim_c6_witness :
    SinglePostFetchStrategy.getParamsFromURL ["post-name"] =
      { slug := some "post-name" } ∧
    SinglePostFetchStrategy.getParamsFromURL ["2021", "post-name"] =
      { slug := some "post-name" } ∧
    SinglePostFetchStrategy.getParamsFromURL ["2021", "10", "post-name"] =
      { slug := some "post-name" } ∧
    SinglePostFetchStrategy.getParamsFromURL ["2021", "10", "30", "post-name"] =
      { slug := some "post-name" } ∧
    SinglePostFetchStrategy.getParamsFromURL ["parent-page", "post-name"] =
      { slug := some "post-name" } ∧
    SinglePostFetchStrategy.getParamsFromURL ["2021", "parent-page", "post-name"] =
      { slug := some "post-name" } ∧
    SinglePostFetchStrategy.getParamsFromURL ["2021", "10", "parent-page", "post-name"] =
      { slug := some "post-name" } ∧
    SinglePostFetchStrategy.getParamsFromURL
      ["2021", "10", "30", "parent-page", "post-name"] =
      { slug := some "post-name" } :=
  claim_c6_single_post_url_params "2021" "10" "30" "parent-page" "post-name" (by decide)

/-- Witness for C9: an explicit `throwIfNotFound: true` is discarded by
the taxonomy-terms fetcher, and an empty search result still succeeds. -/
theorem claim_c9_witness :
    TaxonomyTermsStrategy.fetcher apiAllEmpty "/wp-json/wp/v2/categories" {}
      { throwIfNotFound := true } =
      TaxonomyTermsStrategy.fetcher apiAllEmpty "/wp-json/wp/v2/categories" {}
        { throwIfNotFound := false } ∧
    ∃ r, (SearchFetchStrategy.fetcher sampleCfg apiAllEmpty "/wp-json/wp/v2/posts"
      {}).2 = .ok r ∧ r.result = .many [] :=
  ⟨claim_c9_not_found_always_disabled.1 apiAllEmpty "/wp-json/wp/v2/categories" {}
      { throwIfNotFound := true },
   claim_c9_not_found_always_disabled.2 sampleCfg apiAllEmpty "/wp-json/wp/v2/posts"
      {} [] [] rfl rfl rfl⟩

/-- Witness for C10: the queried-object descriptor with all defaults is
attached to a concrete successful search response whose SEO side-fetch
failed. -/
theorem claim_c10_witness :
    SearchFetchStrategy.fetcher sampleCfg apiSeoFailPost "/wp-json/wp/v2/posts" {} =
      (SearchFetchStrategy.seoCall sampleCfg {} ::
        [{ url := "/wp-json/wp/v2/posts", auth := none }],
       .ok { result := .many [samplePost]
             pageInfo := mkPageInfo []
             queriedObject := some (degradedSearchQueried {}) }) :=
  claim_c10_search_queried_object_defaults sampleCfg apiSeoFailPost
    "/wp-json/wp/v2/posts" {} [{ url := "/wp-json/wp/v2/posts", auth := none }]
    { result := .many [samplePost], pageInfo := mkPageInfo [] } "seo down" rfl rfl

end HeadstartWP
